import Mathlib

/-! Verification of the update deduplication and classification pipeline of the
social-media-monitoring repository (src/app.py), against its natural-language
specification.  The Python source is shallowly embedded: dictionaries become
ordered association lists, SQLite's `INSERT OR IGNORE` under the
`UNIQUE(platform, content_id)` constraint becomes a guarded append on a list
of records, `str.lower` / `in` become explicit character-list operations
(ASCII case folding, which covers every keyword table of the source), and the
regular-expression rules of the movie-name extractor become direct
left-to-right scanners implementing the greedy/backtracking behaviour of the
concrete patterns of the source.
-/

set_option maxHeartbeats 1000000

namespace MovieMonitor

/-- Python `str.lower()` restricted to ASCII case folding (all keyword tables
in the source are ASCII). -/
def lowerStr (s : String) : String := String.mk (s.data.map Char.toLower)

/-- Character-list prefix test (`needle` is a prefix of the second list). -/
def prefixChars : List Char → List Char → Bool
  | [], _ => true
  | _ :: _, [] => false
  | a :: as, b :: bs => a == b && prefixChars as bs

/-- Substring test `containsChars needle hay`: `needle` occurs as a contiguous substring of
`hay`; this is Python's `needle in hay` on strings. -/
def containsChars (needle : List Char) : List Char → Bool
  | [] => prefixChars needle []
  | c :: rest => prefixChars needle (c :: rest) || containsChars needle rest

/-- Python `needle in hay` for strings. -/
def strContains (hay needle : String) : Bool := containsChars needle.data hay.data

/-- Python `any(word in text_lower for word in kws)`. -/
def anyKw (kws : List String) (tl : String) : Bool := kws.any (fun w => strContains tl w)

/-- Python `a or b` on strings: `a` when non-empty, else `b`. -/
def pyOrStr (a b : String) : String := if a == "" then b else a

/- ## Movie-name regular-expression rules (enhanced_extract_movie_info)

The source applies, in order, the patterns
  `#(\w+)(?:movie|film|trailer|teaser)` ,
  `(\w+)\s+(?:movie|film|trailer|teaser)` ,
  `"([^"]+)"` ,  `'([^']+)'`
with `re.IGNORECASE`, keeping the first match of the first pattern that
matches at all.  Each scanner below returns the capture group of the leftmost
match, reproducing the greedy-with-backtracking semantics of the pattern. -/

/-- Python regex `\w` on ASCII text: letters, digits, underscore. -/
def isWordChar (c : Char) : Bool := c.isAlphanum || c == '_'

/-- Python regex `\s` on ASCII text. -/
def isSpaceChar (c : Char) : Bool :=
  c == ' ' || c == '\t' || c == '\n' || c == '\r' || c == '\x0b' || c == '\x0c'

/-- The alternation `(?:movie|film|trailer|teaser)` shared by the first two
movie-name patterns. -/
def movieKws : List String := ["movie", "film", "trailer", "teaser"]

/-- Case-insensitive test that `kw` (already lowercase) matches at the head of
`s`. -/
def ciPrefixHere (kw : String) (s : List Char) : Bool :=
  prefixChars kw.data (s.map Char.toLower)

/-- Greedy backtracking for `(\w+)(?:movie|film|trailer|teaser)` inside a
maximal word-character run: try the longest capture first, shrinking until the
remainder of the run starts with one of the alternation keywords. -/
def hashGroupSearch (run : List Char) : Nat → Option (List Char)
  | 0 => none
  | n + 1 =>
    if movieKws.any (fun kw => ciPrefixHere kw (run.drop (n + 1))) then
      some (run.take (n + 1))
    else hashGroupSearch run n

/-- Leftmost match of `#(\w+)(?:movie|film|trailer|teaser)` (IGNORECASE),
returning the capture group. -/
def pat1Scan : List Char → Option (List Char)
  | [] => none
  | c :: rest =>
    if c == '#' then
      match hashGroupSearch (rest.takeWhile isWordChar) (rest.takeWhile isWordChar).length with
      | some g => some g
      | none => pat1Scan rest
    else pat1Scan rest

/-- Leftmost match of `(\w+)\s+(?:movie|film|trailer|teaser)` (IGNORECASE),
returning the capture group.  Backtracking makes the capture the whole maximal
word run at the match position: any shorter capture is followed by a word
character, which `\s+` rejects. -/
def pat2Scan : List Char → Option (List Char)
  | [] => none
  | c :: rest =>
    if isWordChar c then
      let run := c :: rest.takeWhile isWordChar
      let after := rest.drop (rest.takeWhile isWordChar).length
      let sps := after.takeWhile isSpaceChar
      if decide (0 < sps.length)
          && movieKws.any (fun kw => ciPrefixHere kw (after.drop sps.length)) then
        some run
      else pat2Scan rest
    else pat2Scan rest

/-- Leftmost match of `q([^q]+)q` for a quote character `q`, returning the
capture group. -/
def quoteScan (q : Char) : List Char → Option (List Char)
  | [] => none
  | c :: rest =>
    if c == q then
      let body := rest.takeWhile (fun d => !(d == q))
      match rest.drop body.length with
      | d :: _ =>
        if d == q && decide (0 < body.length) then some body else quoteScan q rest
      | [] => quoteScan q rest
    else quoteScan q rest

/-- Movie-name extraction of `enhanced_extract_movie_info`: the four patterns
are tried in order; the first pattern with any match contributes its first
match (`matches[0]`), later patterns are not consulted (`break`). -/
def movieNameOf (text : String) : String :=
  match pat1Scan text.data with
  | some g => String.mk g
  | none =>
    match pat2Scan text.data with
    | some g => String.mk g
    | none =>
      match quoteScan '"' text.data with
      | some g => String.mk g
      | none =>
        match quoteScan '\'' text.data with
        | some g => String.mk g
        | none => ""

/- ## Entity lookup tables (Python dicts, preserving insertion order) -/

/-- The `telugu_actors` dict of `enhanced_extract_movie_info`, in source
order. -/
def telugu_actors : List (String × String) :=
  [("allu arjun", "Allu Arjun"), ("prabhas", "Prabhas"), ("mahesh babu", "Mahesh Babu"),
   ("jr ntr", "Jr. NTR"), ("ntr", "Jr. NTR"), ("ram charan", "Ram Charan"),
   ("chiranjeevi", "Chiranjeevi"), ("balakrishna", "Balakrishna"),
   ("vijay deverakonda", "Vijay Deverakonda"), ("nani", "Nani"), ("ravi teja", "Ravi Teja"),
   ("nithiin", "Nithiin"), ("sharwanand", "Sharwanand")]

/-- The `directors` dict of `enhanced_extract_movie_info`, in source order. -/
def directors : List (String × String) :=
  [("rajamouli", "S.S. Rajamouli"), ("puri jagannadh", "Puri Jagannadh"),
   ("trivikram", "Trivikram Srinivas"), ("koratala siva", "Koratala Siva"),
   ("sukumar", "Sukumar"), ("vamshi paidipally", "Vamshi Paidipally")]

/-- The `production_houses` dict of `enhanced_extract_movie_info`, in source
order. -/
def production_houses : List (String × String) :=
  [("geetha arts", "Geetha Arts"), ("mythri movie makers", "Mythri Movie Makers"),
   ("people media factory", "People Media Factory"),
   ("sri venkateswara creations", "Sri Venkateswara Creations"),
   ("vyjayanthi movies", "Vyjayanthi Movies"), ("dvv entertainments", "DVV Entertainments")]

/-- The `for key, name in table.items(): if key in text_lower: ...; break`
loop of the source: first entry in table-iteration order whose alias occurs in
the lowered text; the field stays empty otherwise. -/
def tableLookup (tl : String) : List (String × String) → String
  | [] => ""
  | e :: rest => if strContains tl e.1 then e.2 else tableLookup tl rest

/- ## Classifiers -/

/-- Result dictionary of the base `extract_movie_info` (it has no
`production_house` key). -/
structure BaseInfo where
  movie_name : String
  actor_name : String
  director_name : String
  update_type : String
  language : String
deriving DecidableEq, Repr

/-- Base classifier `extract_movie_info` of src/app.py.  Its `movie_patterns`
and `actor_patterns` locals are declared in the source but never applied, so
`movie_name` and `actor_name` are always the initial empty strings. -/
def extract_movie_info (text : String) : BaseInfo :=
  let tl := lowerStr text
  { movie_name := ""
    actor_name := ""
    director_name := ""
    update_type :=
      if anyKw ["trailer", "official trailer"] tl then "trailer"
      else if anyKw ["teaser", "glimpse"] tl then "teaser"
      else if anyKw ["poster", "first look"] tl then "poster"
      else if anyKw ["release", "announcement"] tl then "announcement"
      else "news"
    language :=
      if anyKw ["telugu", "tollywood"] tl then "telugu"
      else if anyKw ["tamil", "kollywood"] tl then "tamil"
      else if anyKw ["hindi", "bollywood"] tl then "hindi"
      else "" }

/-- Result dictionary of `enhanced_extract_movie_info`. -/
structure EnhancedInfo where
  movie_name : String
  actor_name : String
  director_name : String
  production_house : String
  update_type : String
  language : String
deriving DecidableEq, Repr

/-- Update-type cascade of `enhanced_extract_movie_info` (on the lowered
text). -/
def enhancedUpdateType (tl : String) : String :=
  if anyKw ["trailer", "official trailer"] tl then "trailer"
  else if anyKw ["teaser", "glimpse", "sneak peek"] tl then "teaser"
  else if anyKw ["poster", "first look", "character poster"] tl then "poster"
  else if anyKw ["release date", "announcement", "official"] tl then "announcement"
  else if anyKw ["box office", "collection", "earnings"] tl then "box_office"
  else if anyKw ["review", "rating"] tl then "review"
  else "news"

/-- Language cascade of `enhanced_extract_movie_info` (on the lowered
text). -/
def enhancedLanguage (tl : String) : String :=
  if anyKw ["telugu", "tollywood", "andhra", "telangana"] tl then "telugu"
  else if anyKw ["tamil", "kollywood", "tamilnadu"] tl then "tamil"
  else if anyKw ["hindi", "bollywood", "mumbai"] tl then "hindi"
  else if anyKw ["malayalam", "mollywood", "kerala"] tl then "malayalam"
  else if anyKw ["kannada", "sandalwood", "karnataka"] tl then "kannada"
  else ""

/-- Enhanced classifier `enhanced_extract_movie_info` of src/app.py. -/
def enhanced_extract_movie_info (text : String) : EnhancedInfo :=
  let tl := lowerStr text
  { movie_name := movieNameOf text
    actor_name := tableLookup tl telugu_actors
    director_name := tableLookup tl directors
    production_house := tableLookup tl production_houses
    update_type := enhancedUpdateType tl
    language := enhancedLanguage tl }

/- ## Dedup / persistence gate (DatabaseManager.save_movie_update)

The `movie_updates` table carries `UNIQUE(platform, content_id)` and the gate
writes with `INSERT OR IGNORE`, so the database is a list of records to which
a record is appended exactly when no record with the same key is present.
`id` models the `AUTOINCREMENT` primary key and `created_at` the
`DEFAULT CURRENT_TIMESTAMP` column, supplied as the `now` argument. -/

/-- Keyword arguments of `save_movie_update`; the optional ones carry the
`kwargs.get(..., default)` defaults of the source. -/
structure SaveArgs where
  platform : String
  account_name : String
  content_id : String
  title : String
  content : String
  url : String
  language : String := ""
  movie_name : String := ""
  actor_name : String := ""
  director_name : String := ""
  production_house : String := ""
  update_type : String := ""
  engagement_count : Nat := 0
deriving DecidableEq, Repr

/-- Row of the `movie_updates` table. -/
structure MovieUpdateRec where
  id : Nat
  platform : String
  account_name : String
  content_id : String
  title : String
  content : String
  url : String
  language : String
  movie_name : String
  actor_name : String
  director_name : String
  production_house : String
  update_type : String
  engagement_count : Nat
  created_at : Int
  posted_to_telegram : Bool := false
deriving DecidableEq, Repr

/-- Row built by the `INSERT` of `save_movie_update`. -/
def mkRecord (id : Nat) (now : Int) (a : SaveArgs) : MovieUpdateRec :=
  { id := id, platform := a.platform, account_name := a.account_name,
    content_id := a.content_id, title := a.title, content := a.content, url := a.url,
    language := a.language, movie_name := a.movie_name, actor_name := a.actor_name,
    director_name := a.director_name, production_house := a.production_house,
    update_type := a.update_type, engagement_count := a.engagement_count,
    created_at := now, posted_to_telegram := false }

/-- Payload of a stored row: the `save_movie_update` arguments it was built
from (everything except the autoincrement `id` and the insertion
timestamp). -/
def argsOfRecord (r : MovieUpdateRec) : SaveArgs :=
  { platform := r.platform, account_name := r.account_name, content_id := r.content_id,
    title := r.title, content := r.content, url := r.url, language := r.language,
    movie_name := r.movie_name, actor_name := r.actor_name, director_name := r.director_name,
    production_house := r.production_house, update_type := r.update_type,
    engagement_count := r.engagement_count }

/-- The `UNIQUE(platform, content_id)` key test. -/
def keyMatches (p cid : String) (r : MovieUpdateRec) : Bool :=
  r.platform == p && r.content_id == cid

/-- Whether a record with the given key is already stored. -/
def hasKey (db : List MovieUpdateRec) (p cid : String) : Bool :=
  db.any (keyMatches p cid)

/-- The gate `DatabaseManager.save_movie_update`.  The `INSERT OR IGNORE` commits, and
the subsequent `return conn.lastrowid` raises `AttributeError`
(`sqlite3.Connection` has no `lastrowid` attribute — only cursors do); the
bare `except` swallows it and the function returns `None`.  The returned
identifier is therefore `none` on every call, inserted or not. -/
def saveMovieUpdate (db : List MovieUpdateRec) (now : Int) (a : SaveArgs) :
    List MovieUpdateRec × Option Nat :=
  if hasKey db a.platform a.content_id then (db, none)
  else (db ++ [mkRecord (db.length + 1) now a], none)

/-- One call to the gate: its insertion timestamp and keyword arguments. -/
structure SaveOp where
  now : Int
  args : SaveArgs
deriving DecidableEq, Repr

/-- Folding a sequence of gate calls over the store. -/
def applySaves (db : List MovieUpdateRec) : List SaveOp → List MovieUpdateRec
  | [] => db
  | op :: rest => applySaves (saveMovieUpdate db op.now op.args).1 rest

/-- Number of stored records with the given key. -/
def countKey (db : List MovieUpdateRec) (p cid : String) : Nat :=
  (db.filter (keyMatches p cid)).length

/-- First stored record with the given key. -/
def findKey (db : List MovieUpdateRec) (p cid : String) : Option MovieUpdateRec :=
  db.find? (keyMatches p cid)

/-- Whether a gate call targets the given key. -/
def opKeyIs (p cid : String) (op : SaveOp) : Bool :=
  op.args.platform == p && op.args.content_id == cid

/- ## Monitor loop bodies (per fetched item) -/

/-- Tracked account row, as read by the monitor loops. -/
structure Account where
  name : String
  username : String
  language : String
deriving DecidableEq, Repr

/-- Raw tweet as consumed by `monitor_twitter`: `public_metrics` is the
optional metrics dict, reduced to its `like_count` entry. -/
structure Tweet where
  id : String
  text : String
  created_at : Int
  public_metrics : Option Nat
deriving DecidableEq, Repr

/-- Raw Instagram post as consumed by `monitor_instagram_enhanced`. -/
structure InstaPost where
  id : String
  caption : String
  timestamp : Int
  like_count : Option Nat
  permalink : String
deriving DecidableEq, Repr

/-- Python truthiness of the optional integer returned by the gate. -/
def optTruthy : Option Nat → Bool
  | none => false
  | some n => n != 0

/-- The notification guard of `monitor_twitter`:
`update_id and (update_type in ['trailer','teaser','poster'] or
(tweet.public_metrics and tweet.public_metrics['like_count'] > 500))`. -/
def twitterNotifyDecision (updateId : Option Nat) (updateType : String)
    (metrics : Option Nat) : Bool :=
  optTruthy updateId
    && (["trailer", "teaser", "poster"].contains updateType
        || match metrics with
           | some n => decide (500 < n)
           | none => false)

/-- The notification guard of `monitor_instagram_enhanced`:
`update_id and (update_type in ['trailer','teaser','poster','announcement']
or post.get('like_count', 0) > 1000)`. -/
def instaNotifyDecision (updateId : Option Nat) (updateType : String)
    (likeCount : Option Nat) : Bool :=
  optTruthy updateId
    && (["trailer", "teaser", "poster", "announcement"].contains updateType
        || decide (1000 < likeCount.getD 0))

/-- Keyword arguments `monitor_twitter` passes to the gate for one tweet. -/
def twitterArgs (acct : Account) (tw : Tweet) : SaveArgs :=
  let info := extract_movie_info tw.text
  { platform := "twitter", account_name := acct.name, content_id := tw.id,
    title := "Tweet by " ++ acct.name, content := tw.text,
    url := "https://twitter.com/" ++ acct.username ++ "/status/" ++ tw.id,
    language := pyOrStr info.language acct.language,
    movie_name := info.movie_name, actor_name := info.actor_name,
    update_type := info.update_type,
    engagement_count := tw.public_metrics.getD 0 }

/-- Per-tweet body of `monitor_twitter`: skip items older than 24 hours
(86400 seconds), otherwise classify, save through the gate, and emit a
notification when the guard passes.  Returns the store and whether a
notification was sent. -/
def twitterProcessTweet (db : List MovieUpdateRec) (now : Int) (acct : Account)
    (tw : Tweet) : List MovieUpdateRec × Bool :=
  if tw.created_at < now - 86400 then (db, false)
  else
    ((saveMovieUpdate db now (twitterArgs acct tw)).1,
     twitterNotifyDecision (saveMovieUpdate db now (twitterArgs acct tw)).2
       (extract_movie_info tw.text).update_type tw.public_metrics)

/-- Keyword arguments `monitor_instagram_enhanced` passes to the gate for one
post; the record language falls back to the account language via Python
`or`. -/
def instaArgs (acct : Account) (post : InstaPost) : SaveArgs :=
  let info := enhanced_extract_movie_info post.caption
  { platform := "instagram", account_name := acct.name, content_id := post.id,
    title := "Instagram post by " ++ acct.name, content := post.caption,
    url := post.permalink,
    language := pyOrStr info.language acct.language,
    movie_name := info.movie_name, actor_name := info.actor_name,
    director_name := info.director_name, production_house := info.production_house,
    update_type := info.update_type,
    engagement_count := post.like_count.getD 0 }

/-- Per-post body of `monitor_instagram_enhanced`: skip items older than 12
hours (43200 seconds) and empty captions, otherwise classify, save, and apply
the notification guard. -/
def instaProcessPost (db : List MovieUpdateRec) (now : Int) (acct : Account)
    (post : InstaPost) : List MovieUpdateRec × Bool :=
  if post.timestamp < now - 43200 then (db, false)
  else if post.caption == "" then (db, false)
  else
    ((saveMovieUpdate db now (instaArgs acct post)).1,
     instaNotifyDecision (saveMovieUpdate db now (instaArgs acct post)).2
       (enhanced_extract_movie_info post.caption).update_type post.like_count)

/- ## Read accessor /api/updates (get_updates) -/

/-- Python truthiness of an optional query parameter (`if platform:`):
absent and empty-string parameters both skip the filter. -/
def paramTruthy : Option String → Bool
  | none => false
  | some s => s != ""

/-- Conjunction of the WHERE clauses `get_updates` appends for the supplied
filters. -/
def updatesPred (pf lf tf : Option String) (r : MovieUpdateRec) : Bool :=
  (if paramTruthy pf then r.platform == pf.getD "" else true)
    && (if paramTruthy lf then r.language == lf.getD "" else true)
    && (if paramTruthy tf then r.update_type == tf.getD "" else true)

/-- Relation on rows modelling `ORDER BY created_at DESC`. -/
def createdDesc (a b : MovieUpdateRec) : Prop := b.created_at ≤ a.created_at

instance : DecidableRel createdDesc := fun a b => Int.decLe b.created_at a.created_at

instance : IsTotal MovieUpdateRec createdDesc :=
  ⟨fun a b => (le_total a.created_at b.created_at).symm⟩

instance : IsTrans MovieUpdateRec createdDesc :=
  ⟨fun _ _ _ hab hbc => le_trans hbc hab⟩

/-- Sorting a result set by `ORDER BY created_at DESC`. -/
def sortByCreatedDesc (l : List MovieUpdateRec) : List MovieUpdateRec :=
  List.insertionSort createdDesc l

/-- The accessor `get_updates`: filter by the supplied parameters (ANDed), order by
creation time descending, then `LIMIT per_page OFFSET (page-1)*per_page`.
SQLite clamps a negative OFFSET to zero and treats a negative LIMIT as
unbounded. -/
def getUpdates (db : List MovieUpdateRec) (pf lf tf : Option String)
    (page perPage : Int) : List MovieUpdateRec :=
  let sorted := sortByCreatedDesc (db.filter (updatesPred pf lf tf))
  let offset := (max 0 ((page - 1) * perPage)).toNat
  let rest := sorted.drop offset
  if perPage < 0 then rest else rest.take perPage.toNat

/- ## Spec-side formulations (for refinement claims)

These definitions follow the specification's words — a priority-ordered
cascade of keyword sets where the first matching set wins, and a first-match
entity lookup — and are compared against the code-derived definitions
above. -/

/-- Priority-ordered cascade of keyword sets: the first set with a member
occurring in the (case-insensitively) matched text wins, otherwise the
default label is returned.  This is the specification's description of both
the update-type and the language classifier. -/
def keywordCascade : List (List String × String) → String → String → String
  | [], dflt, _ => dflt
  | (kws, label) :: rest, dflt, text =>
    if anyKw kws (lowerStr text) then label else keywordCascade rest dflt text

/-- Update-type priority order of the spec:
trailer > teaser > poster > announcement > box_office > review (> news). -/
def updateTypeRules : List (List String × String) :=
  [(["trailer", "official trailer"], "trailer"),
   (["teaser", "glimpse", "sneak peek"], "teaser"),
   (["poster", "first look", "character poster"], "poster"),
   (["release date", "announcement", "official"], "announcement"),
   (["box office", "collection", "earnings"], "box_office"),
   (["review", "rating"], "review")]

/-- Language priority order of the spec:
telugu > tamil > hindi > malayalam > kannada (> no match). -/
def languageRules : List (List String × String) :=
  [(["telugu", "tollywood", "andhra", "telangana"], "telugu"),
   (["tamil", "kollywood", "tamilnadu"], "tamil"),
   (["hindi", "bollywood", "mumbai"], "hindi"),
   (["malayalam", "mollywood", "kerala"], "malayalam"),
   (["kannada", "sandalwood", "karnataka"], "kannada")]

/-- The specification's entity-lookup contract: the canonical name of the
FIRST entry of the table, in table-iteration order, whose alias occurs in the
lowered text; empty when no alias occurs. -/
def firstAliasMatch (tl : String) (table : List (String × String)) : String :=
  match table.find? (fun e => strContains tl e.1) with
  | some e => e.2
  | none => ""

/- ## Helper lemmas -/

/-- The source's first-match loop over a table equals the specification's
`find?`-based first-entry formulation. -/
theorem tableLookup_eq_firstAliasMatch (tl : String) :
    ∀ table : List (String × String), tableLookup tl table = firstAliasMatch tl table := by
  intro table
  induction table with
  | nil => rfl
  | cons e rest ih =>
    by_cases h : strContains tl e.1 = true
    · simp [tableLookup, firstAliasMatch, List.find?_cons_of_pos, h]
    · rw [Bool.not_eq_true] at h
      simp only [tableLookup, firstAliasMatch, h, Bool.false_eq_true, if_false]
      rw [List.find?_cons_of_neg _ (by simp [h])]
      exact ih

/-- The gate never returns an identifier: `conn.lastrowid` raises
`AttributeError`, the bare `except` swallows it, and `None` is returned. -/
theorem saveMovieUpdate_snd (db : List MovieUpdateRec) (now : Int) (a : SaveArgs) :
    (saveMovieUpdate db now a).2 = none := by
  unfold saveMovieUpdate
  split <;> rfl

/- ## Claim theorems -/

/-- C4: for every input text, the enhanced classifier assigns `update_type`
by the fixed priority cascade trailer > teaser > poster > announcement >
box_office > review, first matching keyword set wins, defaulting to `news`;
in particular any text matching both the trailer set and the box_office set
classifies as `trailer`. -/
theorem update_type_priority_cascade :
    (∀ text : String,
        (enhanced_extract_movie_info text).update_type
          = keywordCascade updateTypeRules "news" text)
    ∧ (∀ text : String,
        anyKw ["trailer", "official trailer"] (lowerStr text) = true →
        anyKw ["box office", "collection", "earnings"] (lowerStr text) = true →
        (enhanced_extract_movie_info text).update_type = "trailer") := by
  constructor
  · intro text
    rfl
  · intro text h1 _h2
    simp [enhanced_extract_movie_info, enhancedUpdateType, h1]

/-- C4 witness: the cascade and the priority instance at concrete inputs. -/
theorem update_type_priority_cascade_witness :
    (enhanced_extract_movie_info "Salaar trailer and box office collection report").update_type
      = "trailer" :=
  update_type_priority_cascade.2 "Salaar trailer and box office collection report"
    (by rfl) (by rfl)

/-- C5: for every input text, the enhanced classifier detects language by the
fixed priority cascade telugu > tamil > hindi > malayalam > kannada (first
matching set wins, so a text matching both the telugu and the tamil sets
yields telugu); when no set matches, the record built by the instagram
monitor carries the caller-supplied account language as fallback, and the
classifier itself yields the empty (unknown) language. -/
theorem language_priority_cascade :
    (∀ text : String,
        (enhanced_extract_movie_info text).language
          = keywordCascade languageRules "" text)
    ∧ (∀ text : String,
        anyKw ["telugu", "tollywood", "andhra", "telangana"] (lowerStr text) = true →
        anyKw ["tamil", "kollywood", "tamilnadu"] (lowerStr text) = true →
        (enhanced_extract_movie_info text).language = "telugu")
    ∧ (∀ (acct : Account) (post : InstaPost),
        (enhanced_extract_movie_info post.caption).language = "" →
        (instaArgs acct post).language = acct.language)
    ∧ (∀ (acct : Account) (post : InstaPost),
        (enhanced_extract_movie_info post.caption).language ≠ "" →
        (instaArgs acct post).language = (enhanced_extract_movie_info post.caption).language) := by
  refine ⟨fun text => rfl, fun text h1 _h2 => ?_, fun acct post h => ?_, fun acct post h => ?_⟩
  · simp [enhanced_extract_movie_info, enhancedLanguage, h1]
  · simp only [instaArgs, pyOrStr]
    rw [if_pos (by simp [h])]
  · simp only [instaArgs, pyOrStr]
    rw [if_neg (by simp [h])]

/-- C5 witness: priority and fallback behaviour at concrete inputs. -/
theorem language_priority_cascade_witness :
    (enhanced_extract_movie_info "telugu and tamil versions release").language = "telugu"
    ∧ (instaArgs { name := "Geetha Arts", username := "geethaarts", language := "telugu" }
        { id := "p1", caption := "great day", timestamp := 0, like_count := some 3,
          permalink := "u" }).language = "telugu"
    ∧ (instaArgs { name := "Geetha Arts", username := "geethaarts", language := "telugu" }
        { id := "p2", caption := "tamil padam", timestamp := 0, like_count := some 3,
          permalink := "u" }).language = "tamil" :=
  ⟨language_priority_cascade.2.1 "telugu and tamil versions release" (by rfl) (by rfl),
   language_priority_cascade.2.2.1
     { name := "Geetha Arts", username := "geethaarts", language := "telugu" }
     { id := "p1", caption := "great day", timestamp := 0, like_count := some 3,
       permalink := "u" } (by rfl),
   by
     have h := language_priority_cascade.2.2.2
       { name := "Geetha Arts", username := "geethaarts", language := "telugu" }
       { id := "p2", caption := "tamil padam", timestamp := 0, like_count := some 3,
         permalink := "u" } (by decide)
     simpa using h⟩

/-- C6: entity extraction returns the canonical name of the first entry of
the lookup table, in table-iteration order, whose alias occurs in the lowered
text (the generic equivalence covers the actor, director and production-house
tables); the field stays empty when no alias occurs; and the text
"NTR and Ram Charan at RRR event" resolves to "Jr. NTR", the canonical name
of the alias `ntr`, which precedes `ram charan` in the table. -/
theorem entity_first_match :
    (∀ (tl : String) (table : List (String × String)),
        tableLookup tl table = firstAliasMatch tl table)
    ∧ (∀ text : String,
        (∀ e ∈ telugu_actors, strContains (lowerStr text) e.1 = false) →
        (enhanced_extract_movie_info text).actor_name = "")
    ∧ (enhanced_extract_movie_info "NTR and Ram Charan at RRR event").actor_name
        = "Jr. NTR" := by
  refine ⟨fun tl table => tableLookup_eq_firstAliasMatch tl table, fun text h => ?_, by rfl⟩
  have : (enhanced_extract_movie_info text).actor_name
      = firstAliasMatch (lowerStr text) telugu_actors := by
    simp only [enhanced_extract_movie_info]
    exact tableLookup_eq_firstAliasMatch _ _
  rw [this]
  unfold firstAliasMatch
  rw [List.find?_eq_none.mpr (by intro e he; simp [h e he])]

/-- C6 witness: no-alias texts yield an empty actor field. -/
theorem entity_first_match_witness :
    (enhanced_extract_movie_info "hello world").actor_name = "" :=
  entity_first_match.2.1 "hello world" (by decide)

/-- C7: the scenario text classifies as a telugu trailer with movie name
"Pushpa", captured by the hashtag pattern (the first movie-name rule), whose
leftmost match on the text has capture group "Pushpa". -/
theorem pushpa_scenario :
    (enhanced_extract_movie_info
        "Pushpa 2 official trailer out now! #PushpaMovie telugu blockbuster").update_type
      = "trailer"
    ∧ (enhanced_extract_movie_info
        "Pushpa 2 official trailer out now! #PushpaMovie telugu blockbuster").language
      = "telugu"
    ∧ (enhanced_extract_movie_info
        "Pushpa 2 official trailer out now! #PushpaMovie telugu blockbuster").movie_name
      = "Pushpa"
    ∧ pat1Scan "Pushpa 2 official trailer out now! #PushpaMovie telugu blockbuster".data
      = some "Pushpa".data :=
  ⟨rfl, rfl, rfl, rfl⟩

/- ## Dedup-gate lemmas -/

/-- A store without a key has no record matching it. -/
theorem hasKey_eq_false_of_findKey_none {db : List MovieUpdateRec} {p cid : String}
    (h : findKey db p cid = none) : hasKey db p cid = false := by
  unfold findKey at h
  unfold hasKey
  rw [List.any_eq_false]
  exact List.find?_eq_none.mp h

/-- The payload projection inverts record construction. -/
theorem argsOfRecord_mkRecord (id : Nat) (now : Int) (a : SaveArgs) :
    argsOfRecord (mkRecord id now a) = a := rfl

/-- One gate call preserves at-most-one-record-per-key. -/
theorem countKey_save_le (db : List MovieUpdateRec) (now : Int) (a : SaveArgs)
    (H : ∀ p cid, countKey db p cid ≤ 1) :
    ∀ p cid, countKey (saveMovieUpdate db now a).1 p cid ≤ 1 := by
  intro p cid
  cases hk : hasKey db a.platform a.content_id
  · simp only [saveMovieUpdate, hk, Bool.false_eq_true, if_false]
    unfold countKey
    rw [List.filter_append, List.length_append]
    cases hm : keyMatches p cid (mkRecord (db.length + 1) now a)
    · simp only [List.filter_cons, hm, Bool.false_eq_true, if_false, List.filter_nil,
        List.length_nil, Nat.add_zero]
      exact H p cid
    · obtain ⟨hp, hc⟩ : a.platform = p ∧ a.content_id = cid := by
        simpa [keyMatches, mkRecord] using hm
      have h0 : countKey db p cid = 0 := by
        unfold countKey
        rw [List.filter_eq_nil_iff.mpr ?_, List.length_nil]
        intro r hr
        have := List.any_eq_false.mp (hp ▸ hc ▸ hk) r hr
        simpa using this
      unfold countKey at h0
      simp [h0, List.filter_cons, hm]
  · simp only [saveMovieUpdate, hk, if_true]
    exact H p cid

/-- A whole call sequence preserves at-most-one-record-per-key. -/
theorem applySaves_countKey (ops : List SaveOp) :
    ∀ db : List MovieUpdateRec, (∀ p cid, countKey db p cid ≤ 1) →
      ∀ p cid, countKey (applySaves db ops) p cid ≤ 1 := by
  induction ops with
  | nil => intro db H; exact H
  | cons op rest ih =>
    intro db H
    exact ih _ (countKey_save_le db op.now op.args H)

/-- A stored record survives any later gate call unchanged. -/
theorem findKey_save_of_some {db : List MovieUpdateRec} {p cid : String}
    {r : MovieUpdateRec} (now : Int) (a : SaveArgs) (h : findKey db p cid = some r) :
    findKey (saveMovieUpdate db now a).1 p cid = some r := by
  cases hk : hasKey db a.platform a.content_id
  · simp only [saveMovieUpdate, hk, Bool.false_eq_true, if_false]
    unfold findKey at h ⊢
    rw [List.find?_append, h]
    rfl
  · simpa [saveMovieUpdate, hk] using h

/-- A stored record survives any later call sequence unchanged. -/
theorem applySaves_findKey_some (ops : List SaveOp) :
    ∀ {db : List MovieUpdateRec} {p cid : String} {r : MovieUpdateRec},
      findKey db p cid = some r → findKey (applySaves db ops) p cid = some r := by
  induction ops with
  | nil => intro db p cid r h; exact h
  | cons op rest ih =>
    intro db p cid r h
    exact ih (findKey_save_of_some op.now op.args h)

/-- For a key absent from the store, the record eventually stored for it is
exactly the payload of the first call of the sequence targeting it. -/
theorem applySaves_findKey_none (ops : List SaveOp) :
    ∀ (db : List MovieUpdateRec) (p cid : String), findKey db p cid = none →
      (findKey (applySaves db ops) p cid).map argsOfRecord
        = (ops.find? (opKeyIs p cid)).map SaveOp.args := by
  induction ops with
  | nil =>
    intro db p cid h
    simp [applySaves, h]
  | cons op rest ih =>
    intro db p cid h
    simp only [applySaves]
    cases hop : opKeyIs p cid op
    · have hnew : keyMatches p cid (mkRecord (db.length + 1) op.now op.args) = false := by
        simpa [keyMatches, mkRecord, opKeyIs] using hop
      have hdb' : findKey (saveMovieUpdate db op.now op.args).1 p cid = none := by
        cases hk : hasKey db op.args.platform op.args.content_id
        · simp only [saveMovieUpdate, hk, Bool.false_eq_true, if_false]
          unfold findKey at h ⊢
          rw [List.find?_append, h]
          simp [hnew]
        · simpa [saveMovieUpdate, hk] using h
      rw [ih _ p cid hdb', List.find?_cons_of_neg _ (by simp [hop])]
    · obtain ⟨hp, hc⟩ : op.args.platform = p ∧ op.args.content_id = cid := by
        simpa [opKeyIs] using hop
      have hk : hasKey db op.args.platform op.args.content_id = false := by
        rw [hp, hc]
        exact hasKey_eq_false_of_findKey_none h
      have hdb' : findKey (saveMovieUpdate db op.now op.args).1 p cid
          = some (mkRecord (db.length + 1) op.now op.args) := by
        simp only [saveMovieUpdate, hk, Bool.false_eq_true, if_false]
        unfold findKey at h ⊢
        rw [List.find?_append, h]
        simp [keyMatches, mkRecord, hp, hc]
      rw [applySaves_findKey_some rest hdb', List.find?_cons_of_pos _ (by exact hop)]
      simp [argsOfRecord_mkRecord]

/-- C1: over any sequence of gate calls starting from the fresh store, at
most one record ever exists per (platform, content_id) key; the record stored
for a key carries the payload of the FIRST call with that key (later saves
overwrite nothing); and a save on an already-present key is a pure no-op
returning normally. -/
theorem dedup_gate_invariant :
    (∀ (ops : List SaveOp) (p cid : String),
        countKey (applySaves [] ops) p cid ≤ 1)
    ∧ (∀ (ops : List SaveOp) (p cid : String),
        (findKey (applySaves [] ops) p cid).map argsOfRecord
          = (ops.find? (opKeyIs p cid)).map SaveOp.args)
    ∧ (∀ (db : List MovieUpdateRec) (now : Int) (a : SaveArgs),
        hasKey db a.platform a.content_id = true →
        saveMovieUpdate db now a = (db, none)) :=
  ⟨fun ops p cid => applySaves_countKey ops [] (fun _ _ => Nat.zero_le 1) p cid,
   fun ops p cid => applySaves_findKey_none ops [] p cid rfl,
   fun db now a h => by simp [saveMovieUpdate, h]⟩

/-- Sample gate payload used by concrete witnesses. -/
def sampleArgs : SaveArgs :=
  { platform := "twitter", account_name := "Geetha Arts", content_id := "t1",
    title := "Tweet by Geetha Arts", content := "Pushpa trailer",
    url := "https://twitter.com/GeethaArts/status/t1" }

/-- C1 witness: a second save with an already-stored key is a no-op. -/
theorem dedup_gate_invariant_witness :
    saveMovieUpdate [mkRecord 1 0 sampleArgs] 5 sampleArgs
      = ([mkRecord 1 0 sampleArgs], none) :=
  dedup_gate_invariant.2.2 [mkRecord 1 0 sampleArgs] 5 sampleArgs (by rfl)

/-- C2: on a fresh key the gate inserts the record but still returns no
identifier — `return conn.lastrowid` raises `AttributeError`
(`sqlite3.Connection` has no such attribute), which the bare `except`
converts to `None` — contradicting the contract that a fresh save returns
the new record's identifier. -/
theorem save_returns_no_identifier :
    (saveMovieUpdate [] 0 sampleArgs).2 = none
    ∧ (saveMovieUpdate [] 0 sampleArgs).1 = [mkRecord 1 0 sampleArgs] :=
  ⟨rfl, rfl⟩

/-- Account used by the notification counterexample. -/
def c3Account : Account :=
  { name := "Mythri Movie Makers", username := "MythriOfficial", language := "telugu" }

/-- Tweet used by the notification counterexample: fresh, classified as a
trailer, engagement zero. -/
def c3Tweet : Tweet :=
  { id := "42", text := "Pushpa trailer", created_at := 0, public_metrics := some 0 }

/-- C3 counterexample: a recent tweet with a fresh key and
`update_type = trailer` and engagement 0 is freshly inserted, yet NO
notification is emitted — refuting "a freshly inserted record with
update_type = trailer and engagement_count = 0 always triggers a
notification". -/
theorem fresh_trailer_not_notified :
    (twitterProcessTweet [] 0 c3Account c3Tweet).2 = false
    ∧ hasKey (twitterProcessTweet [] 0 c3Account c3Tweet).1 "twitter" "42" = true
    ∧ (extract_movie_info c3Tweet.text).update_type = "trailer"
    ∧ (twitterArgs c3Account c3Tweet).engagement_count = 0 :=
  ⟨rfl, rfl, rfl, rfl⟩

/-- C3 amended: no notification is ever emitted by the twitter or instagram
monitor bodies — the gate always returns `None`, so the guard
`update_id and (...)` never passes.  Had the guard received a truthy insert
identifier, its decision rule differs from the claim: the instagram
always-relay set also contains `announcement`, while twitter's is exactly
{trailer, teaser, poster} with its 500-like threshold. -/
theorem no_notifications_ever :
    (∀ (db : List MovieUpdateRec) (now : Int) (acct : Account) (tw : Tweet),
        (twitterProcessTweet db now acct tw).2 = false)
    ∧ (∀ (db : List MovieUpdateRec) (now : Int) (acct : Account) (post : InstaPost),
        (instaProcessPost db now acct post).2 = false)
    ∧ instaNotifyDecision (some 1) "announcement" (some 0) = true
    ∧ twitterNotifyDecision (some 1) "announcement" (some 0) = false := by
  refine ⟨fun db now acct tw => ?_, fun db now acct post => ?_, rfl, rfl⟩
  · unfold twitterProcessTweet
    split
    · rfl
    · simp [twitterNotifyDecision, saveMovieUpdate_snd, optTruthy]
  · unfold instaProcessPost
    split
    · rfl
    · split
      · rfl
      · simp [instaNotifyDecision, saveMovieUpdate_snd, optTruthy]

/-- C8: the base classifier `extract_movie_info` — used by the twitter,
base-instagram, base-youtube and news paths — always returns empty
`movie_name` and `actor_name` (its `movie_patterns` and `actor_patterns`
locals are never applied), so every record the twitter body adds to the store
carries empty movie and actor annotations. -/
theorem base_extractor_empty_entities :
    (∀ text : String,
        (extract_movie_info text).movie_name = ""
          ∧ (extract_movie_info text).actor_name = "")
    ∧ (∀ (db : List MovieUpdateRec) (now : Int) (acct : Account) (tw : Tweet),
        ∀ r ∈ (twitterProcessTweet db now acct tw).1,
          r ∈ db ∨ (r.movie_name = "" ∧ r.actor_name = "")) := by
  refine ⟨fun text => ⟨rfl, rfl⟩, fun db now acct tw r hr => ?_⟩
  unfold twitterProcessTweet at hr
  split at hr
  · exact Or.inl hr
  · simp only [] at hr
    unfold saveMovieUpdate at hr
    split at hr
    · exact Or.inl hr
    · rcases List.mem_append.mp hr with h | h
      · exact Or.inl h
      · right
        have : r = mkRecord (db.length + 1) now (twitterArgs acct tw) := by simpa using h
        subst this
        exact ⟨rfl, rfl⟩

/-- Tweet 25 hours old relative to `now = 0`, used by the recency and C8
witnesses. -/
def staleTweet : Tweet :=
  { id := "old1", text := "Pushpa trailer", created_at := -90000,
    public_metrics := some 9999 }

/-- C8 witness: a record already in the store passed through the twitter body
is accounted for by the left disjunct. -/
theorem base_extractor_empty_entities_witness :
    mkRecord 1 0 sampleArgs ∈ ([mkRecord 1 0 sampleArgs] : List MovieUpdateRec)
      ∨ ((mkRecord 1 0 sampleArgs).movie_name = ""
          ∧ (mkRecord 1 0 sampleArgs).actor_name = "") :=
  base_extractor_empty_entities.2 [mkRecord 1 0 sampleArgs] 0 c3Account staleTweet
    (mkRecord 1 0 sampleArgs) (by decide)

/-- C9: the twitter body discards any raw item older than the 24-hour window
entirely — the store is untouched and nothing is emitted, so the item reaches
neither the classifier-fed gate nor the notifier; a within-window item
conversely is handed to the persistence gate. -/
theorem twitter_recency_window :
    ∀ (db : List MovieUpdateRec) (now : Int) (acct : Account) (tw : Tweet),
      (tw.created_at < now - 86400 → twitterProcessTweet db now acct tw = (db, false))
      ∧ (¬ tw.created_at < now - 86400 →
          (twitterProcessTweet db now acct tw).1
            = (saveMovieUpdate db now (twitterArgs acct tw)).1) := by
  intro db now acct tw
  constructor
  · intro h
    simp [twitterProcessTweet, h]
  · intro h
    simp [twitterProcessTweet, h]

/-- C9 witness: a 25-hour-old tweet leaves the store unchanged and emits
nothing. -/
theorem twitter_recency_window_witness :
    twitterProcessTweet [] 0 c3Account staleTweet = ([], false) :=
  (twitter_recency_window [] 0 c3Account staleTweet).1 (by decide)

/-- C10: with the supplied filters ANDed, the read accessor returns exactly
the window `take per_page (drop ((page-1)*per_page) ...)` of the filtered,
creation-time-descending record list: every returned record satisfies all
supplied filters, the result is ordered by creation time descending, and at
most `per_page` records are returned. -/
theorem get_updates_filter_sort_paginate :
    ∀ (db : List MovieUpdateRec) (pf lf tf : Option String) (page perPage : Int),
      1 ≤ page → 0 ≤ perPage →
      (∀ r ∈ getUpdates db pf lf tf page perPage, updatesPred pf lf tf r = true)
      ∧ List.Pairwise createdDesc (getUpdates db pf lf tf page perPage)
      ∧ (getUpdates db pf lf tf page perPage).length ≤ perPage.toNat
      ∧ getUpdates db pf lf tf page perPage
          = ((sortByCreatedDesc (db.filter (updatesPred pf lf tf))).drop
              (((page - 1) * perPage).toNat)).take perPage.toNat := by
  intro db pf lf tf page perPage hpage hper
  have heq : getUpdates db pf lf tf page perPage
      = ((sortByCreatedDesc (db.filter (updatesPred pf lf tf))).drop
          (((page - 1) * perPage).toNat)).take perPage.toNat := by
    unfold getUpdates
    rw [if_neg (by omega), Int.max_eq_right (mul_nonneg (by omega) hper)]
  refine ⟨?_, ?_, ?_, heq⟩
  · intro r hr
    rw [heq] at hr
    have hr2 : r ∈ sortByCreatedDesc (db.filter (updatesPred pf lf tf)) :=
      List.mem_of_mem_drop (List.mem_of_mem_take hr)
    have hr3 : r ∈ db.filter (updatesPred pf lf tf) :=
      (List.perm_insertionSort createdDesc _).mem_iff.mp hr2
    exact (List.mem_filter.mp hr3).2
  · rw [heq]
    exact List.Pairwise.sublist
      ((List.take_sublist _ _).trans (List.drop_sublist _ _))
      (List.sorted_insertionSort createdDesc _)
  · rw [heq]
    exact List.length_take_le _ _

/-- Payload of the first pagination-witness row. -/
def wArgsA : SaveArgs :=
  { platform := "youtube", account_name := "a", content_id := "v1",
    title := "", content := "", url := "", language := "telugu" }

/-- Payload of the second pagination-witness row. -/
def wArgsB : SaveArgs :=
  { platform := "youtube", account_name := "a", content_id := "v2",
    title := "", content := "", url := "", language := "telugu" }

/-- Payload of the third pagination-witness row. -/
def wArgsC : SaveArgs :=
  { platform := "twitter", account_name := "a", content_id := "t9",
    title := "", content := "", url := "", language := "telugu" }

/-- Concrete stored rows for the pagination witness. -/
def wRecA : MovieUpdateRec := mkRecord 1 5 wArgsA

/-- Concrete stored rows for the pagination witness. -/
def wRecB : MovieUpdateRec := mkRecord 2 9 wArgsB

/-- Concrete stored rows for the pagination witness. -/
def wRecC : MovieUpdateRec := mkRecord 3 7 wArgsC

/-- C10 witness: the youtube/telugu filter with page 2, per_page 1 yields the
paging window of the sorted filtered set. -/
theorem get_updates_filter_sort_paginate_witness :
    getUpdates [wRecA, wRecB, wRecC] (some "youtube") (some "telugu") none 2 1
      = ((sortByCreatedDesc ([wRecA, wRecB, wRecC].filter
            (updatesPred (some "youtube") (some "telugu") none))).drop
          ((((2 : Int) - 1) * 1).toNat)).take (1 : Int).toNat :=
  (get_updates_filter_sort_paginate [wRecA, wRecB, wRecC] (some "youtube") (some "telugu")
    none 2 1 (by decide) (by decide)).2.2.2

end MovieMonitor
